import Mathlib

/-
  Verification development for the pysim6502 repository: a shallow embedding
  of the 6502 CPU emulator (src/cpu.py), its generic memory bus (src/bus.py)
  and the Apple 1 system bus overlay (src/apple1_bus.py).

  Modelling conventions:
  * Python integers are modelled as Nat; wrapping masks such as `& 0xFFFF`
    and `& 0xFF` become `% 65536` and `% 256`; bit tests such as `& 0x80`
    use Nat bitwise and (`&&&`).
  * Python expressions that may go negative (subtraction in SBC / CMP /
    branch displacement arithmetic) are modelled with Int; Python floor
    division and modulus on a positive divisor coincide with Int `/` and
    `%` (Euclidean) in Lean, and Python `x & 0xFF` on a possibly negative
    int equals `(x % 256).toNat`.
  * Python's in-place mutation with exceptions is modelled by the state
    monad EStateM SimError Machine, whose error results carry the state at
    the moment of the raise, exactly as a Python exception leaves earlier
    field assignments in place.
  * Real-time sleeps (time.sleep) and the curses terminal handle are not
    modelled except that the Apple 1 display output stream is represented
    as an optional list of emitted characters.
  * Bus memory and the per-address permission tables are modelled as
    functions from Nat; the source indexes fixed 65536-entry lists, and
    every access first masks the address into 0..65535.
-/

namespace Sim6502

/-- SimError (src/sim_error.py): the simulator-scoped exception, carrying a
message string. -/
structure SimError where
  message : String
deriving DecidableEq

/-- Uppercase hexadecimal digit for a value 0..15, as produced by Python
format specifier X. -/
def hexDigit (n : Nat) : Char :=
  if n < 10 then Char.ofNat (48 + n) else Char.ofNat (55 + n)

/-- Fuel-driven accumulator loop producing the uppercase hex digits of n.
The fuel is always supplied as n + 1, which is at least the digit count. -/
def toHexAux : Nat → Nat → List Char → List Char
  | 0, _, acc => acc
  | fuel + 1, n, acc =>
    if n < 16 then hexDigit n :: acc
    else toHexAux fuel (n / 16) (hexDigit (n % 16) :: acc)

/-- Python format f-string piece such as 04X or 02X: uppercase hex, left
padded with zeros to the given width. -/
def toHexPad (width n : Nat) : String :=
  let ds := toHexAux (n + 1) n []
  String.mk (List.replicate (width - ds.length) '0' ++ ds)

/-- Bus (src/bus.py): 64K memory with per-address read/write permission,
a pending-interrupt slot and the throw_memory_errors flag.  The fields
delay, stdscr and scr_settings of the source are not consulted by any
modelled operation and are omitted. -/
structure Bus where
  mem : Nat → Nat
  is_writeable : Nat → Bool
  is_readable : Nat → Bool
  throw_memory_errors : Bool
  interrupt : Option String

/-- Bus.read (src/bus.py lines 85-98): mask the address to 16 bits, then
return the stored byte if readable; otherwise raise a SimError naming the
address in four-digit hex when throw_memory_errors is set, else return 0.
The generic bus read never mutates the bus, so the bus is not returned. -/
def Bus.read (bus : Bus) (address : Nat) : Except SimError Nat :=
  let address := address % 65536
  if bus.is_readable address then
    Except.ok (bus.mem address)
  else
    if bus.throw_memory_errors then
      Except.error ⟨"Attempt to read from unreadable address $" ++ toHexPad 4 address⟩
    else
      Except.ok 0

/-- Bus.write (src/bus.py lines 101-111): mask address to 16 bits and value
to 8 bits, then store if writeable; otherwise raise when
throw_memory_errors is set, else silently drop.  The result pairs the
final bus state with the exception, if one propagated; in the source no
mutation precedes the raise, so the bus component is unchanged there. -/
def Bus.write (bus : Bus) (address value : Nat) : Bus × Option SimError :=
  let address := address % 65536
  let value := value % 256
  if bus.is_writeable address then
    ({ bus with mem := fun j => if j = address then value else bus.mem j }, none)
  else
    if bus.throw_memory_errors then
      (bus, some ⟨"Attempt to write value $" ++ toHexPad 2 value ++
                  " to unwriteable address $" ++ toHexPad 4 address⟩)
    else
      (bus, none)

/-- CPU register file and bookkeeping state (src/cpu.py __init__ /
initialize_registers).  Flags are kept numeric exactly as in the source;
halted is a genuine boolean there and here. -/
structure CPU where
  a : Nat
  x : Nat
  y : Nat
  pc : Nat
  s : Nat
  c : Nat
  z : Nat
  i : Nat
  d : Nat
  b : Nat
  v : Nat
  n : Nat
  halted : Bool
  breakpoints : List Nat
  last_break : Option Nat

/-- The CPU together with the bus it owns: the mutable state threaded
through every instruction. -/
structure Machine where
  cpu : CPU
  bus : Bus

/-- The effect monad of the embedding: state Machine, exceptions SimError.
EStateM error results carry the state of the moment of the raise, mirroring
Python's mutate-then-raise semantics. -/
abbrev M (α : Type) : Type := EStateM SimError Machine α

def getM : M Machine := fun m => EStateM.Result.ok m m

def getC : M CPU := fun m => EStateM.Result.ok m.cpu m

def modC (f : CPU → CPU) : M Unit := fun m =>
  EStateM.Result.ok () { m with cpu := f m.cpu }

def modB (f : Bus → Bus) : M Unit := fun m =>
  EStateM.Result.ok () { m with bus := f m.bus }

def throwSim {α : Type} (e : SimError) : M α := fun m => EStateM.Result.error e m

/-- Lift of self.bus.read into the machine monad: a raised SimError
propagates with the machine unchanged. -/
def busRead (address : Nat) : M Nat := fun m =>
  match Bus.read m.bus address with
  | Except.ok v => EStateM.Result.ok v m
  | Except.error e => EStateM.Result.error e m

/-- Lift of self.bus.write into the machine monad. -/
def busWrite (address value : Nat) : M Unit := fun m =>
  match Bus.write m.bus address value with
  | (bus1, none) => EStateM.Result.ok () { m with bus := bus1 }
  | (bus1, some e) => EStateM.Result.error e { m with bus := bus1 }

/-- Class attribute CPU.stack_location (src/cpu.py line 18). -/
def stack_location : Nat := 0x0100

/-- Class attribute CPU.irq_vector (src/cpu.py line 19). -/
def irq_vector : Nat := 0xFFFA

/-- Class attribute CPU.reset_vector (src/cpu.py line 20). -/
def reset_vector : Nat := 0xFFFC

/-- Class attribute CPU.nmi_brk_vector (src/cpu.py line 21). -/
def nmi_brk_vector : Nat := 0xFFFE

/-- CPU.get_status_register (src/cpu.py lines 79-89): pack the flags into
one byte; a flag contributes its bit whenever it is nonzero. -/
def get_status_register (cpu : CPU) : Nat :=
  (if cpu.n ≠ 0 then 0x80 else 0) +
  (if cpu.v ≠ 0 then 0x40 else 0) +
  (if cpu.b ≠ 0 then 0x10 else 0) +
  (if cpu.d ≠ 0 then 0x08 else 0) +
  (if cpu.i ≠ 0 then 0x04 else 0) +
  (if cpu.z ≠ 0 then 0x02 else 0) +
  (if cpu.c ≠ 0 then 0x01 else 0)

/-- CPU.set_status_register (src/cpu.py lines 92-100): unpack a status byte
into the seven stored flags.  Note that bit 4 is written into b (the break
flag) and that bit 5 has no stored flag. -/
def set_status_register (cpu : CPU) (sr : Nat) : CPU :=
  { cpu with
    n := if sr &&& 0x80 ≠ 0 then 1 else 0
    v := if sr &&& 0x40 ≠ 0 then 1 else 0
    b := if sr &&& 0x10 ≠ 0 then 1 else 0
    d := if sr &&& 0x08 ≠ 0 then 1 else 0
    i := if sr &&& 0x04 ≠ 0 then 1 else 0
    z := if sr &&& 0x02 ≠ 0 then 1 else 0
    c := if sr &&& 0x01 ≠ 0 then 1 else 0 }

/-- CPU.inc_pc (src/cpu.py lines 141-143): increment PC with 16-bit wrap. -/
def inc_pc : M Unit := modC fun cpu => { cpu with pc := (cpu.pc + 1) % 65536 }

/-- CPU.bin2bcd (src/cpu.py lines 317-318).  Takes Int because the decimal
mode of SBC can feed it a negative value; Python floor-div/mod on positive
divisors and the final two's complement mask `& 0xFF` are the Euclidean
operations here. -/
def bin2bcd (n : Int) : Nat := ((n / 10) * 16 + n % 10).emod 256 |>.toNat

/-- CPU.bcd2bin (src/cpu.py lines 320-321): all call sites pass a
nonnegative byte, so Nat suffices; `& 0x0F` is % 16. -/
def bcd2bin (n : Nat) : Nat := (n / 16) * 10 + n % 16

/-- Python `x & 0x80` evaluated on a possibly negative int: two's
complement, so it only depends on x mod 256. -/
def bit7mask (r : Int) : Nat := (r.emod 256).toNat &&& 0x80

/-- CPU.set_nz (src/cpu.py lines 385-388).  Takes Int because decimal-mode
SBC can pass a still-negative result. -/
def set_nz (result : Int) : M Unit := modC fun cpu =>
  { cpu with z := if result = 0 then 1 else 0
             n := if 0x80 ≤ result then 1 else 0 }

/-- CPU.pull (src/cpu.py lines 371-376): pre-increment S (mod 256), then
read from page one at the new S. -/
def pull : M Nat := do
  modC fun cpu => { cpu with s := (cpu.s + 1) % 256 }
  let cpu ← getC
  busRead (stack_location + cpu.s)

/-- CPU.push (src/cpu.py lines 378-383): write to page one at S, then
decrement S with 8-bit wrap (Python (s - 1) & 0xFF). -/
def push (value : Nat) : M Unit := do
  let cpu ← getC
  busWrite (stack_location + cpu.s) value
  modC fun cpu => { cpu with s := (cpu.s + 255) % 256 }

/-- CPU.absolute (src/cpu.py lines 224-230): operand address is the two
bytes after the opcode, little-endian. -/
def absolute : M Nat := do
  let cpu ← getC
  let lo ← busRead cpu.pc
  inc_pc
  let cpu ← getC
  let hi ← busRead cpu.pc
  inc_pc
  pure (lo + hi * 0x100)

/-- CPU.absolute_x (src/cpu.py lines 232-236). -/
def absolute_x : M Nat := do
  let address ← absolute
  let cpu ← getC
  pure ((address + cpu.x) % 65536)

/-- CPU.absolute_y (src/cpu.py lines 238-242). -/
def absolute_y : M Nat := do
  let address ← absolute
  let cpu ← getC
  pure ((address + cpu.y) % 65536)

/-- CPU.accumulator (src/cpu.py lines 244-247): returns the sentinel none
meaning the operator works on register A. -/
def accumulator : M (Option Nat) := pure none

/-- CPU.immediate (src/cpu.py lines 249-253). -/
def immediate : M Nat := do
  let cpu ← getC
  inc_pc
  pure cpu.pc

/-- CPU.indirect (src/cpu.py lines 255-269): only used by JMP in the real
instruction set.  Reproduces the famous page-wrap: when the pointer lies at
$xxFF the high byte is fetched from $xx00 (address_location - 0xFF), not
from the next page.  The debugging print in the source has no state
effect and is not modelled. -/
def indirect : M Nat := do
  let cpu ← getC
  let lo_ptr ← busRead cpu.pc
  inc_pc
  let cpu ← getC
  let hi_ptr ← busRead cpu.pc
  inc_pc
  let address_location := lo_ptr + hi_ptr * 0x100
  let address_lsb ← busRead address_location
  let address_location :=
    if address_location % 256 = 0xFF then address_location - 0xFF
    else address_location + 1
  let address_msb ← busRead address_location
  pure (address_msb * 0x100 + address_lsb)

/-- CPU.zero_page (src/cpu.py lines 293-297). -/
def zero_page : M Nat := do
  let cpu ← getC
  let address ← busRead cpu.pc
  inc_pc
  pure address

/-- CPU.zero_page_x (src/cpu.py lines 299-304): wraps in the zero page. -/
def zero_page_x : M Nat := do
  let cpu ← getC
  let address ← busRead cpu.pc
  inc_pc
  let cpu1 ← getC
  pure ((address + cpu1.x) % 256)

/-- CPU.zero_page_y (src/cpu.py lines 306-311). -/
def zero_page_y : M Nat := do
  let cpu ← getC
  let address ← busRead cpu.pc
  inc_pc
  let cpu1 ← getC
  pure ((address + cpu1.y) % 256)

/-- CPU.indirect_x (src/cpu.py lines 271-280): zero_page_x gives the
pointer location; the high pointer byte is read first (left operand of the
Python expression), from (location + 1) mod 256.  The debugging print is
not modelled. -/
def indirect_x : M Nat := do
  let address_location ← zero_page_x
  let hi ← busRead ((address_location + 1) % 256)
  let lo ← busRead address_location
  pure (hi * 0x100 + lo)

/-- CPU.indirect_y (src/cpu.py lines 282-291). -/
def indirect_y : M Nat := do
  let address_location ← zero_page
  let hi ← busRead ((address_location + 1) % 256)
  let lo ← busRead address_location
  let cpu ← getC
  pure ((hi * 0x100 + lo + cpu.y) % 65536)

/-- CPU.branch (src/cpu.py lines 323-330): read the displacement, advance
PC, and when taken add the sign-extended displacement mod 65536.  The
negative case Python computes (pc - (0x100 - disp)) & 0xFFFF; adding 65536
first keeps the subtraction inside Nat. -/
def branch (take_branch : Bool) : M Unit := do
  let cpu ← getC
  let displacement ← busRead cpu.pc
  inc_pc
  if take_branch then
    modC fun cpu =>
      { cpu with pc :=
          if 0x80 ≤ displacement then (cpu.pc + 65536 + displacement - 0x100) % 65536
          else (cpu.pc + displacement) % 65536 }
  else
    pure ()

/-- CPU.compare (src/cpu.py lines 332-341): carry from the sign of the
difference before masking, then N and Z from the masked byte. -/
def compare (reg_value value : Nat) : M Unit := do
  let result : Int := (reg_value : Int) - (value : Int)
  modC fun cpu => { cpu with c := if 0 ≤ result then 1 else 0 }
  set_nz (result.emod 256)

/-- CPU.shift_left (src/cpu.py lines 343-355): ASL when carry_fill is
false, ROL when true. -/
def shift_left (value : Nat) (carry_fill : Bool) : M Nat := do
  let cpu ← getC
  let saved_carry := cpu.c
  modC fun cpu => { cpu with c := if 0x80 ≤ value then 1 else 0 }
  let value := (value * 2) % 256
  let value := if carry_fill ∧ saved_carry ≠ 0 then value + 1 else value
  set_nz (value : Int)
  pure value

/-- CPU.shift_right (src/cpu.py lines 357-369): LSR when carry_fill is
false, ROR when true. -/
def shift_right (value : Nat) (carry_fill : Bool) : M Nat := do
  let cpu ← getC
  let saved_carry := cpu.c
  modC fun cpu => { cpu with c := value % 2 }
  let value := (value / 2) % 256
  let value := if carry_fill ∧ saved_carry ≠ 0 then value + 0x80 else value
  set_nz (value : Int)
  pure value

/-- CPU.sei (src/cpu.py lines 641-643). -/
def sei : M Unit := modC fun cpu => { cpu with i := 1 }

/-- CPU.sei_and_set_pc (src/cpu.py lines 134-139): disable interrupts and
load PC little-endian from the vector (low byte read first). -/
def sei_and_set_pc (vector : Nat) : M Unit := do
  sei
  let lo ← busRead vector
  let hi ← busRead ((vector + 1) % 65536)
  modC fun cpu => { cpu with pc := lo + hi * 0x100 }

/-- CPU.reset (src/cpu.py lines 103-105). -/
def reset : M Unit := sei_and_set_pc reset_vector

/-- CPU.php (src/cpu.py lines 567-569): push status with bits 4 and 5 set. -/
def php : M Unit := do
  let cpu ← getC
  push (get_status_register cpu ||| 0b00110000)

/-- CPU.interrupt (src/cpu.py lines 108-131): push return address (high
byte first), push status (via PHP when entered from BRK, else with bits 4
and 5 cleared), then vector through sei_and_set_pc. -/
def interrupt (vector : Nat) (set_break_flag : Bool) : M Unit := do
  let cpu ← getC
  push (cpu.pc / 0x100)
  let cpu ← getC
  push (cpu.pc % 256)
  if set_break_flag then
    php
  else do
    let cpu ← getC
    push (get_status_register cpu &&& 0b11001111)
  sei_and_set_pc vector

/-- CPU.adc (src/cpu.py lines 394-419): add memory and carry into A.  In
decimal mode operands are decoded through bcd2bin, at most one 100 is
subtracted, and A receives the bin2bcd re-encoding; N and Z are set from
the pre-encoding result.  The overflow flag always compares bit 7 of the
original A and of the operand against the (binary) result. -/
def adc (address : Nat) : M Unit := do
  let value ← busRead address
  let cpu0 ← getC
  let result ←
    if cpu0.d ≠ 0 then do
      let r := bcd2bin cpu0.a + bcd2bin value + cpu0.c
      if 100 ≤ r then do
        modC fun cpu => { cpu with c := 1 }
        pure (r - 100)
      else do
        modC fun cpu => { cpu with c := 0 }
        pure r
    else do
      let r := cpu0.a + value + cpu0.c
      modC fun cpu => { cpu with c := if 255 < r then 1 else 0 }
      pure (r % 256)
  modC fun cpu =>
    { cpu with v := if cpu0.a &&& 0x80 ≠ result &&& 0x80 ∧
                       value &&& 0x80 ≠ result &&& 0x80 then 1 else 0 }
  set_nz (result : Int)
  if cpu0.d ≠ 0 then
    modC fun cpu => { cpu with a := bin2bcd (result : Int) }
  else
    modC fun cpu => { cpu with a := result }

/-- CPU.aNd (src/cpu.py lines 423-426): the AND instruction. -/
def aNd (address : Nat) : M Unit := do
  let value ← busRead address
  modC fun cpu => { cpu with a := (cpu.a &&& value) % 256 }
  let cpu ← getC
  set_nz (cpu.a : Int)

/-- CPU.asl (src/cpu.py lines 428-434): operates on A when the resolver
returned the accumulator sentinel, else on memory. -/
def asl (address : Option Nat) : M Unit := do
  let cpu ← getC
  let value ←
    match address with
    | none => pure cpu.a
    | some addr => busRead addr
  let value ← shift_left value false
  match address with
  | none => modC fun cpu => { cpu with a := value }
  | some addr => busWrite addr value

/-- CPU.bcc (src/cpu.py lines 436-437). -/
def bcc : M Unit := do
  let cpu ← getC
  branch (cpu.c = 0)

/-- CPU.bcs (src/cpu.py lines 439-440). -/
def bcs : M Unit := do
  let cpu ← getC
  branch (cpu.c ≠ 0)

/-- CPU.beq (src/cpu.py lines 442-443). -/
def beq : M Unit := do
  let cpu ← getC
  branch (cpu.z ≠ 0)

/-- CPU.bit (src/cpu.py lines 445-449). -/
def bit (address : Nat) : M Unit := do
  let value ← busRead address
  modC fun cpu =>
    { cpu with z := if value &&& cpu.a = 0 then 1 else 0
               n := if 0x80 ≤ value then 1 else 0
               v := if value &&& 0x40 = 0x40 then 1 else 0 }

/-- CPU.bmi (src/cpu.py lines 451-452). -/
def bmi : M Unit := do
  let cpu ← getC
  branch (cpu.n ≠ 0)

/-- CPU.bne (src/cpu.py lines 454-455). -/
def bne : M Unit := do
  let cpu ← getC
  branch (cpu.z = 0)

/-- CPU.bpl (src/cpu.py lines 457-458). -/
def bpl : M Unit := do
  let cpu ← getC
  branch (cpu.n = 0)

/-- CPU.brk (src/cpu.py lines 460-464): skip the signature byte, then take
the interrupt through the NMI/BRK vector with the break flag pushed. -/
def brk : M Unit := do
  inc_pc
  interrupt nmi_brk_vector true

/-- CPU.bvc (src/cpu.py lines 466-467). -/
def bvc : M Unit := do
  let cpu ← getC
  branch (cpu.v = 0)

/-- CPU.bvs (src/cpu.py lines 469-470). -/
def bvs : M Unit := do
  let cpu ← getC
  branch (cpu.v ≠ 0)

/-- CPU.clc (src/cpu.py lines 472-473). -/
def clc : M Unit := modC fun cpu => { cpu with c := 0 }

/-- CPU.cld (src/cpu.py lines 475-476). -/
def cld : M Unit := modC fun cpu => { cpu with d := 0 }

/-- CPU.cli (src/cpu.py lines 478-480). -/
def cli : M Unit := modC fun cpu => { cpu with i := 0 }

/-- CPU.clv (src/cpu.py lines 482-483). -/
def clv : M Unit := modC fun cpu => { cpu with v := 0 }

/-- CPU.cmp (src/cpu.py lines 485-486). -/
def cmp (address : Nat) : M Unit := do
  let value ← busRead address
  let cpu ← getC
  compare cpu.a value

/-- CPU.cpx (src/cpu.py lines 488-489). -/
def cpx (address : Nat) : M Unit := do
  let value ← busRead address
  let cpu ← getC
  compare cpu.x value

/-- CPU.cpy (src/cpu.py lines 491-492). -/
def cpy (address : Nat) : M Unit := do
  let value ← busRead address
  let cpu ← getC
  compare cpu.y value

/-- CPU.dec (src/cpu.py lines 494-497); (v - 1) & 0xFF in Nat form. -/
def dec (address : Nat) : M Unit := do
  let v0 ← busRead address
  let value := (v0 + 255) % 256
  busWrite address value
  set_nz (value : Int)

/-- CPU.dex (src/cpu.py lines 499-501). -/
def dex : M Unit := do
  modC fun cpu => { cpu with x := (cpu.x + 255) % 256 }
  let cpu ← getC
  set_nz (cpu.x : Int)

/-- CPU.dey (src/cpu.py lines 503-505). -/
def dey : M Unit := do
  modC fun cpu => { cpu with y := (cpu.y + 255) % 256 }
  let cpu ← getC
  set_nz (cpu.y : Int)

/-- CPU.eor (src/cpu.py lines 507-510). -/
def eor (address : Nat) : M Unit := do
  let value ← busRead address
  modC fun cpu => { cpu with a := (cpu.a ^^^ value) % 256 }
  let cpu ← getC
  set_nz (cpu.a : Int)

/-- CPU.inc (src/cpu.py lines 512-515). -/
def inc (address : Nat) : M Unit := do
  let v0 ← busRead address
  let value := (v0 + 1) % 256
  busWrite address value
  set_nz (value : Int)

/-- CPU.inx (src/cpu.py lines 517-519). -/
def inx : M Unit := do
  modC fun cpu => { cpu with x := (cpu.x + 1) % 256 }
  let cpu ← getC
  set_nz (cpu.x : Int)

/-- CPU.iny (src/cpu.py lines 521-523). -/
def iny : M Unit := do
  modC fun cpu => { cpu with y := (cpu.y + 1) % 256 }
  let cpu ← getC
  set_nz (cpu.y : Int)

/-- CPU.jmp (src/cpu.py lines 525-526). -/
def jmp (address : Nat) : M Unit := modC fun cpu => { cpu with pc := address }

/-- CPU.jsr (src/cpu.py lines 528-534): push (PC - 1) & 0xFFFF big end
first, then jump. -/
def jsr (address : Nat) : M Unit := do
  let cpu ← getC
  let return_address := (cpu.pc + 65535) % 65536
  push (return_address / 0x100)
  push (return_address % 256)
  modC fun cpu => { cpu with pc := address }

/-- CPU.lda (src/cpu.py lines 536-538). -/
def lda (address : Nat) : M Unit := do
  let value ← busRead address
  modC fun cpu => { cpu with a := value }
  set_nz (value : Int)

/-- CPU.ldx (src/cpu.py lines 540-542). -/
def ldx (address : Nat) : M Unit := do
  let value ← busRead address
  modC fun cpu => { cpu with x := value }
  set_nz (value : Int)

/-- CPU.ldy (src/cpu.py lines 544-546). -/
def ldy (address : Nat) : M Unit := do
  let value ← busRead address
  modC fun cpu => { cpu with y := value }
  set_nz (value : Int)

/-- CPU.lsr (src/cpu.py lines 548-554). -/
def lsr (address : Option Nat) : M Unit := do
  let cpu ← getC
  let value ←
    match address with
    | none => pure cpu.a
    | some addr => busRead addr
  let value ← shift_right value false
  match address with
  | none => modC fun cpu => { cpu with a := value }
  | some addr => busWrite addr value

/-- CPU.nop (src/cpu.py lines 556-557). -/
def nop : M Unit := pure ()

/-- CPU.ora (src/cpu.py lines 559-562). -/
def ora (address : Nat) : M Unit := do
  let value ← busRead address
  modC fun cpu => { cpu with a := (cpu.a ||| value) % 256 }
  let cpu ← getC
  set_nz (cpu.a : Int)

/-- CPU.pha (src/cpu.py lines 564-565). -/
def pha : M Unit := do
  let cpu ← getC
  push cpu.a

/-- CPU.pla (src/cpu.py lines 571-573). -/
def pla : M Unit := do
  let value ← pull
  modC fun cpu => { cpu with a := value }
  set_nz (value : Int)

/-- CPU.plp (src/cpu.py lines 575-576): pull a byte and unpack it into the
flags via set_status_register. -/
def plp : M Unit := do
  let value ← pull
  modC fun cpu => set_status_register cpu value

/-- CPU.rol (src/cpu.py lines 578-584). -/
def rol (address : Option Nat) : M Unit := do
  let cpu ← getC
  let value ←
    match address with
    | none => pure cpu.a
    | some addr => busRead addr
  let value ← shift_left value true
  match address with
  | none => modC fun cpu => { cpu with a := value }
  | some addr => busWrite addr value

/-- CPU.ror (src/cpu.py lines 586-592). -/
def ror (address : Option Nat) : M Unit := do
  let cpu ← getC
  let value ←
    match address with
    | none => pure cpu.a
    | some addr => busRead addr
  let value ← shift_right value true
  match address with
  | none => modC fun cpu => { cpu with a := value }
  | some addr => busWrite addr value

/-- CPU.rti (src/cpu.py lines 594-597): pull status (through plp), then the
return address low byte first. -/
def rti : M Unit := do
  plp
  let lsb ← pull
  let msb ← pull
  modC fun cpu => { cpu with pc := msb * 0x100 + lsb }

/-- CPU.rts (src/cpu.py lines 599-603). -/
def rts : M Unit := do
  let lsb ← pull
  let msb ← pull
  modC fun cpu => { cpu with pc := msb * 0x100 + lsb }
  inc_pc

/-- CPU.sbc (src/cpu.py lines 605-633): subtract with inverse borrow.  The
overflow test runs on the unmasked (possibly negative) result, whose bit 7
in Python two's complement is bit7mask; the decimal branch then adds 100
back when negative; the binary branch masks to 8 bits. -/
def sbc (address : Nat) : M Unit := do
  let value ← busRead address
  let cpu0 ← getC
  let result ←
    if cpu0.d ≠ 0 then do
      let r : Int := (bcd2bin cpu0.a : Int) - (bcd2bin value : Int) + (cpu0.c : Int) - 1
      modC fun cpu =>
        { cpu with v := if cpu0.a &&& 0x80 ≠ bit7mask r ∧
                           value &&& 0x80 = bit7mask r then 1 else 0 }
      if r < 0 then do
        modC fun cpu => { cpu with c := 0 }
        pure (r + 100)
      else do
        modC fun cpu => { cpu with c := 1 }
        pure r
    else do
      let r : Int := (cpu0.a : Int) - (value : Int) + (cpu0.c : Int) - 1
      modC fun cpu => { cpu with c := if 0 ≤ r then 1 else 0 }
      modC fun cpu =>
        { cpu with v := if cpu0.a &&& 0x80 ≠ bit7mask r ∧
                           value &&& 0x80 = bit7mask r then 1 else 0 }
      pure (r.emod 256)
  set_nz result
  if cpu0.d ≠ 0 then
    modC fun cpu => { cpu with a := bin2bcd result }
  else
    modC fun cpu => { cpu with a := result.toNat }

/-- CPU.sec (src/cpu.py lines 635-636). -/
def sec : M Unit := modC fun cpu => { cpu with c := 1 }

/-- CPU.sed (src/cpu.py lines 638-639). -/
def sed : M Unit := modC fun cpu => { cpu with d := 1 }

/-- CPU.sta (src/cpu.py lines 645-646). -/
def sta (address : Nat) : M Unit := do
  let cpu ← getC
  busWrite address cpu.a

/-- CPU.stx (src/cpu.py lines 648-649). -/
def stx (address : Nat) : M Unit := do
  let cpu ← getC
  busWrite address cpu.x

/-- CPU.sty (src/cpu.py lines 651-652). -/
def sty (address : Nat) : M Unit := do
  let cpu ← getC
  busWrite address cpu.y

/-- CPU.tax (src/cpu.py lines 654-656). -/
def tax : M Unit := do
  modC fun cpu => { cpu with x := cpu.a }
  let cpu ← getC
  set_nz (cpu.x : Int)

/-- CPU.tay (src/cpu.py lines 658-660). -/
def tay : M Unit := do
  modC fun cpu => { cpu with y := cpu.a }
  let cpu ← getC
  set_nz (cpu.y : Int)

/-- CPU.tsx (src/cpu.py lines 662-664). -/
def tsx : M Unit := do
  modC fun cpu => { cpu with x := cpu.s }
  let cpu ← getC
  set_nz (cpu.x : Int)

/-- CPU.txa (src/cpu.py lines 666-668). -/
def txa : M Unit := do
  modC fun cpu => { cpu with a := cpu.x }
  let cpu ← getC
  set_nz (cpu.a : Int)

/-- CPU.txs (src/cpu.py lines 670-671). -/
def txs : M Unit := modC fun cpu => { cpu with s := cpu.x }

/-- CPU.tya (src/cpu.py lines 673-675). -/
def tya : M Unit := do
  modC fun cpu => { cpu with a := cpu.y }
  let cpu ← getC
  set_nz (cpu.a : Int)

/-- Tags for the zero-operand (implied / relative) operator methods that
appear alone in the opcodes dictionary. -/
inductive Imp where
  | brk | php | bpl | clc | plp | bmi | sec | rti | pha | bvc
  | cli | rts | pla | bvs | sei | dey | txa | bcc | tya | txs
  | tay | tax | bcs | clv | tsx | iny | dex | bne | cld | inx
  | nop | beq | sed
deriving DecidableEq

/-- Tags for the operator methods that take a resolved operand address. -/
inductive Opc where
  | adc | aNd | asl | bit | cmp | cpx | cpy | dec | eor | inc
  | jmp | jsr | lda | ldx | ldy | lsr | ora | rol | ror | sbc
  | sta | stx | sty
deriving DecidableEq

/-- Tags for the address-resolving methods (addressing modes). -/
inductive Mode where
  | absolute | absolute_x | absolute_y | accumulator | immediate
  | indirect | indirect_x | indirect_y | zero_page | zero_page_x | zero_page_y
deriving DecidableEq

/-- Shape of one entry of the opcodes dictionary: either a bare operator
method or an operator paired with an addressing-mode resolver. -/
inductive Instruction where
  | plain (op : Imp)
  | addressed (op : Opc) (mode : Mode)
deriving DecidableEq

/-- Dispatch of an addressing-mode tag to its resolver.  All resolvers but
accumulator produce a concrete address; accumulator produces the sentinel
none. -/
def runMode : Mode → M (Option Nat)
  | Mode.absolute => do let a ← absolute; pure (some a)
  | Mode.absolute_x => do let a ← absolute_x; pure (some a)
  | Mode.absolute_y => do let a ← absolute_y; pure (some a)
  | Mode.accumulator => accumulator
  | Mode.immediate => do let a ← immediate; pure (some a)
  | Mode.indirect => do let a ← indirect; pure (some a)
  | Mode.indirect_x => do let a ← indirect_x; pure (some a)
  | Mode.indirect_y => do let a ← indirect_y; pure (some a)
  | Mode.zero_page => do let a ← zero_page; pure (some a)
  | Mode.zero_page_x => do let a ← zero_page_x; pure (some a)
  | Mode.zero_page_y => do let a ← zero_page_y; pure (some a)

/-- Dispatch of an addressed operator tag.  In the source table the
accumulator sentinel is only ever paired with asl, lsr, rol and ror, which
accept it; for every other operator the none case is unreachable and the
getD default is never exercised. -/
def runOpc : Opc → Option Nat → M Unit
  | Opc.asl, a => asl a
  | Opc.lsr, a => lsr a
  | Opc.rol, a => rol a
  | Opc.ror, a => ror a
  | Opc.adc, a => adc (a.getD 0)
  | Opc.aNd, a => aNd (a.getD 0)
  | Opc.bit, a => bit (a.getD 0)
  | Opc.cmp, a => cmp (a.getD 0)
  | Opc.cpx, a => cpx (a.getD 0)
  | Opc.cpy, a => cpy (a.getD 0)
  | Opc.dec, a => dec (a.getD 0)
  | Opc.eor, a => eor (a.getD 0)
  | Opc.inc, a => inc (a.getD 0)
  | Opc.jmp, a => jmp (a.getD 0)
  | Opc.jsr, a => jsr (a.getD 0)
  | Opc.lda, a => lda (a.getD 0)
  | Opc.ldx, a => ldx (a.getD 0)
  | Opc.ldy, a => ldy (a.getD 0)
  | Opc.ora, a => ora (a.getD 0)
  | Opc.sbc, a => sbc (a.getD 0)
  | Opc.sta, a => sta (a.getD 0)
  | Opc.stx, a => stx (a.getD 0)
  | Opc.sty, a => sty (a.getD 0)

/-- Dispatch of a zero-operand operator tag to its method. -/
def runImp : Imp → M Unit
  | Imp.brk => brk
  | Imp.php => php
  | Imp.bpl => bpl
  | Imp.clc => clc
  | Imp.plp => plp
  | Imp.bmi => bmi
  | Imp.sec => sec
  | Imp.rti => rti
  | Imp.pha => pha
  | Imp.bvc => bvc
  | Imp.cli => cli
  | Imp.rts => rts
  | Imp.pla => pla
  | Imp.bvs => bvs
  | Imp.sei => sei
  | Imp.dey => dey
  | Imp.txa => txa
  | Imp.bcc => bcc
  | Imp.tya => tya
  | Imp.txs => txs
  | Imp.tay => tay
  | Imp.tax => tax
  | Imp.bcs => bcs
  | Imp.clv => clv
  | Imp.tsx => tsx
  | Imp.iny => iny
  | Imp.dex => dex
  | Imp.bne => bne
  | Imp.cld => cld
  | Imp.inx => inx
  | Imp.nop => nop
  | Imp.beq => beq
  | Imp.sed => sed

/-- The CPU.opcodes dictionary (src/cpu.py lines 685-839), transcribed
entry for entry.  The Python dict is keyed by the two-digit uppercase hex
string of the opcode; that keying is bijective with the byte value for
values below 0x100, and any other value misses the dictionary, so the
lookup is modelled as a partial map on Nat. -/
def opcodes : Nat → Option Instruction
  | 0x00 => some (Instruction.plain Imp.brk)
  | 0x01 => some (Instruction.addressed Opc.ora Mode.indirect_x)
  | 0x05 => some (Instruction.addressed Opc.ora Mode.zero_page)
  | 0x06 => some (Instruction.addressed Opc.asl Mode.zero_page)
  | 0x08 => some (Instruction.plain Imp.php)
  | 0x09 => some (Instruction.addressed Opc.ora Mode.immediate)
  | 0x0A => some (Instruction.addressed Opc.asl Mode.accumulator)
  | 0x0D => some (Instruction.addressed Opc.ora Mode.absolute)
  | 0x0E => some (Instruction.addressed Opc.asl Mode.absolute)
  | 0x10 => some (Instruction.plain Imp.bpl)
  | 0x11 => some (Instruction.addressed Opc.ora Mode.indirect_y)
  | 0x15 => some (Instruction.addressed Opc.ora Mode.zero_page_x)
  | 0x16 => some (Instruction.addressed Opc.asl Mode.zero_page_x)
  | 0x18 => some (Instruction.plain Imp.clc)
  | 0x19 => some (Instruction.addressed Opc.ora Mode.absolute_y)
  | 0x1D => some (Instruction.addressed Opc.ora Mode.absolute_x)
  | 0x1E => some (Instruction.addressed Opc.asl Mode.absolute_x)
  | 0x20 => some (Instruction.addressed Opc.jsr Mode.absolute)
  | 0x21 => some (Instruction.addressed Opc.aNd Mode.indirect)
  | 0x24 => some (Instruction.addressed Opc.bit Mode.zero_page)
  | 0x25 => some (Instruction.addressed Opc.aNd Mode.zero_page)
  | 0x26 => some (Instruction.addressed Opc.rol Mode.zero_page)
  | 0x28 => some (Instruction.plain Imp.plp)
  | 0x29 => some (Instruction.addressed Opc.aNd Mode.immediate)
  | 0x2A => some (Instruction.addressed Opc.rol Mode.accumulator)
  | 0x2C => some (Instruction.addressed Opc.bit Mode.absolute)
  | 0x2D => some (Instruction.addressed Opc.aNd Mode.absolute)
  | 0x2E => some (Instruction.addressed Opc.rol Mode.absolute)
  | 0x30 => some (Instruction.plain Imp.bmi)
  | 0x31 => some (Instruction.addressed Opc.aNd Mode.indirect_y)
  | 0x35 => some (Instruction.addressed Opc.aNd Mode.zero_page_x)
  | 0x36 => some (Instruction.addressed Opc.rol Mode.zero_page_x)
  | 0x38 => some (Instruction.plain Imp.sec)
  | 0x39 => some (Instruction.addressed Opc.aNd Mode.absolute_y)
  | 0x3D => some (Instruction.addressed Opc.aNd Mode.absolute_x)
  | 0x3E => some (Instruction.addressed Opc.rol Mode.absolute_x)
  | 0x40 => some (Instruction.plain Imp.rti)
  | 0x41 => some (Instruction.addressed Opc.eor Mode.indirect_x)
  | 0x45 => some (Instruction.addressed Opc.eor Mode.zero_page)
  | 0x46 => some (Instruction.addressed Opc.lsr Mode.zero_page)
  | 0x48 => some (Instruction.plain Imp.pha)
  | 0x49 => some (Instruction.addressed Opc.eor Mode.immediate)
  | 0x4A => some (Instruction.addressed Opc.lsr Mode.accumulator)
  | 0x4C => some (Instruction.addressed Opc.jmp Mode.absolute)
  | 0x4D => some (Instruction.addressed Opc.eor Mode.absolute)
  | 0x4E => some (Instruction.addressed Opc.lsr Mode.absolute)
  | 0x50 => some (Instruction.plain Imp.bvc)
  | 0x51 => some (Instruction.addressed Opc.eor Mode.indirect_y)
  | 0x55 => some (Instruction.addressed Opc.eor Mode.zero_page_x)
  | 0x56 => some (Instruction.addressed Opc.lsr Mode.zero_page_x)
  | 0x58 => some (Instruction.plain Imp.cli)
  | 0x59 => some (Instruction.addressed Opc.eor Mode.absolute_y)
  | 0x5D => some (Instruction.addressed Opc.eor Mode.absolute_x)
  | 0x5E => some (Instruction.addressed Opc.lsr Mode.absolute_x)
  | 0x60 => some (Instruction.plain Imp.rts)
  | 0x61 => some (Instruction.addressed Opc.adc Mode.indirect_x)
  | 0x65 => some (Instruction.addressed Opc.adc Mode.zero_page)
  | 0x66 => some (Instruction.addressed Opc.ror Mode.zero_page)
  | 0x68 => some (Instruction.plain Imp.pla)
  | 0x69 => some (Instruction.addressed Opc.adc Mode.immediate)
  | 0x6A => some (Instruction.addressed Opc.ror Mode.accumulator)
  | 0x6C => some (Instruction.addressed Opc.jmp Mode.indirect)
  | 0x6D => some (Instruction.addressed Opc.adc Mode.absolute)
  | 0x6E => some (Instruction.addressed Opc.ror Mode.absolute)
  | 0x70 => some (Instruction.plain Imp.bvs)
  | 0x71 => some (Instruction.addressed Opc.adc Mode.indirect_y)
  | 0x75 => some (Instruction.addressed Opc.adc Mode.zero_page_x)
  | 0x76 => some (Instruction.addressed Opc.ror Mode.zero_page_x)
  | 0x78 => some (Instruction.plain Imp.sei)
  | 0x79 => some (Instruction.addressed Opc.adc Mode.absolute_y)
  | 0x7D => some (Instruction.addressed Opc.adc Mode.absolute_x)
  | 0x7E => some (Instruction.addressed Opc.ror Mode.absolute_x)
  | 0x81 => some (Instruction.addressed Opc.sta Mode.indirect_x)
  | 0x84 => some (Instruction.addressed Opc.sty Mode.zero_page)
  | 0x85 => some (Instruction.addressed Opc.sta Mode.zero_page)
  | 0x86 => some (Instruction.addressed Opc.stx Mode.zero_page)
  | 0x88 => some (Instruction.plain Imp.dey)
  | 0x8A => some (Instruction.plain Imp.txa)
  | 0x8C => some (Instruction.addressed Opc.sty Mode.absolute)
  | 0x8D => some (Instruction.addressed Opc.sta Mode.absolute)
  | 0x8E => some (Instruction.addressed Opc.stx Mode.absolute)
  | 0x90 => some (Instruction.plain Imp.bcc)
  | 0x91 => some (Instruction.addressed Opc.sta Mode.indirect_y)
  | 0x94 => some (Instruction.addressed Opc.sty Mode.zero_page_x)
  | 0x95 => some (Instruction.addressed Opc.sta Mode.zero_page_x)
  | 0x96 => some (Instruction.addressed Opc.stx Mode.zero_page_y)
  | 0x98 => some (Instruction.plain Imp.tya)
  | 0x99 => some (Instruction.addressed Opc.sta Mode.absolute_y)
  | 0x9A => some (Instruction.plain Imp.txs)
  | 0x9D => some (Instruction.addressed Opc.sta Mode.absolute_x)
  | 0xA0 => some (Instruction.addressed Opc.ldy Mode.immediate)
  | 0xA1 => some (Instruction.addressed Opc.lda Mode.indirect_x)
  | 0xA2 => some (Instruction.addressed Opc.ldx Mode.immediate)
  | 0xA4 => some (Instruction.addressed Opc.ldy Mode.zero_page)
  | 0xA5 => some (Instruction.addressed Opc.lda Mode.zero_page)
  | 0xA6 => some (Instruction.addressed Opc.ldx Mode.zero_page)
  | 0xA8 => some (Instruction.plain Imp.tay)
  | 0xA9 => some (Instruction.addressed Opc.lda Mode.immediate)
  | 0xAA => some (Instruction.plain Imp.tax)
  | 0xAC => some (Instruction.addressed Opc.ldy Mode.absolute)
  | 0xAD => some (Instruction.addressed Opc.lda Mode.absolute)
  | 0xAE => some (Instruction.addressed Opc.ldx Mode.absolute)
  | 0xB0 => some (Instruction.plain Imp.bcs)
  | 0xB1 => some (Instruction.addressed Opc.lda Mode.indirect_y)
  | 0xB4 => some (Instruction.addressed Opc.ldy Mode.zero_page_x)
  | 0xB5 => some (Instruction.addressed Opc.lda Mode.zero_page_x)
  | 0xB6 => some (Instruction.addressed Opc.ldx Mode.zero_page_y)
  | 0xB8 => some (Instruction.plain Imp.clv)
  | 0xB9 => some (Instruction.addressed Opc.lda Mode.absolute_y)
  | 0xBA => some (Instruction.plain Imp.tsx)
  | 0xBC => some (Instruction.addressed Opc.ldy Mode.absolute_x)
  | 0xBD => some (Instruction.addressed Opc.lda Mode.absolute_x)
  | 0xBE => some (Instruction.addressed Opc.ldx Mode.absolute_y)
  | 0xC0 => some (Instruction.addressed Opc.cpy Mode.immediate)
  | 0xC1 => some (Instruction.addressed Opc.cmp Mode.indirect_x)
  | 0xC4 => some (Instruction.addressed Opc.cpy Mode.zero_page)
  | 0xC5 => some (Instruction.addressed Opc.cmp Mode.zero_page)
  | 0xC6 => some (Instruction.addressed Opc.dec Mode.zero_page)
  | 0xC8 => some (Instruction.plain Imp.iny)
  | 0xC9 => some (Instruction.addressed Opc.cmp Mode.immediate)
  | 0xCA => some (Instruction.plain Imp.dex)
  | 0xCC => some (Instruction.addressed Opc.cpy Mode.absolute)
  | 0xCD => some (Instruction.addressed Opc.cmp Mode.absolute)
  | 0xCE => some (Instruction.addressed Opc.dec Mode.absolute)
  | 0xD0 => some (Instruction.plain Imp.bne)
  | 0xD1 => some (Instruction.addressed Opc.cmp Mode.indirect_y)
  | 0xD5 => some (Instruction.addressed Opc.cmp Mode.zero_page_x)
  | 0xD6 => some (Instruction.addressed Opc.dec Mode.zero_page_x)
  | 0xD8 => some (Instruction.plain Imp.cld)
  | 0xD9 => some (Instruction.addressed Opc.cmp Mode.absolute_y)
  | 0xDD => some (Instruction.addressed Opc.cmp Mode.absolute_x)
  | 0xDE => some (Instruction.addressed Opc.dec Mode.absolute_x)
  | 0xE0 => some (Instruction.addressed Opc.cpx Mode.immediate)
  | 0xE1 => some (Instruction.addressed Opc.sbc Mode.indirect_x)
  | 0xE4 => some (Instruction.addressed Opc.cpx Mode.zero_page)
  | 0xE5 => some (Instruction.addressed Opc.sbc Mode.zero_page)
  | 0xE6 => some (Instruction.addressed Opc.inc Mode.zero_page)
  | 0xE8 => some (Instruction.plain Imp.inx)
  | 0xE9 => some (Instruction.addressed Opc.sbc Mode.immediate)
  | 0xEA => some (Instruction.plain Imp.nop)
  | 0xEC => some (Instruction.addressed Opc.cpx Mode.absolute)
  | 0xED => some (Instruction.addressed Opc.sbc Mode.absolute)
  | 0xEE => some (Instruction.addressed Opc.inc Mode.absolute)
  | 0xF0 => some (Instruction.plain Imp.beq)
  | 0xF1 => some (Instruction.addressed Opc.sbc Mode.indirect_y)
  | 0xF5 => some (Instruction.addressed Opc.sbc Mode.zero_page_x)
  | 0xF6 => some (Instruction.addressed Opc.inc Mode.zero_page_x)
  | 0xF8 => some (Instruction.plain Imp.sed)
  | 0xF9 => some (Instruction.addressed Opc.sbc Mode.absolute_y)
  | 0xFD => some (Instruction.addressed Opc.sbc Mode.absolute_x)
  | 0xFE => some (Instruction.addressed Opc.inc Mode.absolute_x)
  | _ => none

/-- Execution of one fetched table entry (src/cpu.py lines 205-214): the
resolver runs first, then the operator receives the resolved address.  The
"improperly formatted" branch of the source guards malformed list entries,
which cannot occur under the Instruction type. -/
def runInstruction : Instruction → M Unit
  | Instruction.plain op => runImp op
  | Instruction.addressed op mode => do
      let a ← runMode mode
      runOpc op a

/-- The opcode fetch / decode / execute tail of CPU.step (src/cpu.py lines
192-214), entered once the interrupt and breakpoint checks have fallen
through.  The time.sleep(self.delay) preceding the fetch is a pure
real-time effect and is not modelled. -/
def fetch_and_execute : M Unit := do
  let m ← getM
  let opcode ← busRead m.cpu.pc
  let saved_pc := m.cpu.pc
  inc_pc
  let key := toHexPad 2 opcode
  match opcodes opcode with
  | none => do
      modC fun cpu => { cpu with halted := true }
      throwSim ⟨"Unrecognized opcode $" ++ key ++ " at $" ++ toHexPad 4 saved_pc⟩
  | some instruction => runInstruction instruction

/-- CPU.step (src/cpu.py lines 165-214): refuse to step a halted CPU; then
resolve a pending bus interrupt (RES runs reset, HLT halts, anything else
raises with the slot left untouched); then the breakpoint trap with its
one-shot resume memo; finally fetch and execute one instruction. -/
def step : M Unit := do
  let m ← getM
  if m.cpu.halted then
    throwSim ⟨"Stepping attempted while CPU is halted."⟩
  else
    match m.bus.interrupt with
    | some tag =>
        if tag = "RES" then do
          reset
          modB fun bus => { bus with interrupt := none }
        else if tag = "HLT" then do
          modC fun cpu => { cpu with halted := true }
          modB fun bus => { bus with interrupt := none }
        else
          throwSim ⟨"Unimplemented interrupt condition " ++ tag⟩
    | none =>
        if m.cpu.pc ∈ m.cpu.breakpoints then
          if m.cpu.last_break = none ∨ some m.cpu.pc ≠ m.cpu.last_break then
            modC fun cpu => { cpu with halted := true, last_break := some m.cpu.pc }
          else do
            modC fun cpu => { cpu with last_break := none }
            fetch_and_execute
        else
          fetch_and_execute

/-- SystemBus (src/apple1_bus.py): the Apple 1 overlay over the generic
bus, adding the keyboard latch register, the display mirror register and
the attached terminal.  The terminal (curses stdscr) is modelled as an
optional list of the characters emitted so far; None models the detached
state, exactly the source's self.stdscr is None checks. -/
structure SystemBus where
  base : Bus
  kbd : Nat
  dsp : Nat
  screen : Option (List Char)

/-- The is_writeable table established by SystemBus.__init__ (src/
apple1_bus.py lines 17-19) for in-range addresses: everything from $8000
up is marked non-writable.  Addresses are always masked into 0..65535
before the table is consulted. -/
def apple1_is_writeable (address : Nat) : Bool := decide (address < 0x8000)

/-- The is_readable table established by SystemBus.__init__ (src/
apple1_bus.py lines 21-22) for in-range addresses: $8000-$DFFF is marked
unreadable. -/
def apple1_is_readable (address : Nat) : Bool :=
  decide (address < 0x8000 ∨ 0xE000 ≤ address)

/-- SystemBus.write (src/apple1_bus.py lines 86-116): intercept the display
data register $D012 (store the mirror, strip bit 7, fold lowercase,
optionally emit to the terminal after converting CR to LF) and silently
ignore $D011 and $D013; every other address is passed to the base bus
write.  The time.sleep for output delay and the curses refresh call have
no modelled state effect. -/
def SystemBus.write (bus : SystemBus) (address value : Nat) :
    SystemBus × Option SimError :=
  let address := address % 65536
  let value := value % 256
  if address = 0xD012 then
    let bus := { bus with dsp := value }
    let value := value % 128
    let value := if 95 < value then value - 32 else value
    let bus :=
      if (32 ≤ value ∧ value ≤ 95) ∨ value = 13 then
        let value := if value = 13 then 10 else value
        match bus.screen with
        | some scr => { bus with screen := some (scr ++ [Char.ofNat value]) }
        | none => bus
      else bus
    (bus, none)
  else if address = 0xD011 ∨ address = 0xD013 then
    (bus, none)
  else
    match Bus.write bus.base address value with
    | (base1, e) => ({ bus with base := base1 }, e)

/-- Final machine of an EStateM result, whether it succeeded or raised:
the state a Python caller observes after the call or after catching the
exception. -/
def resultMachine {α : Type} : EStateM.Result SimError Machine α → Machine
  | EStateM.Result.ok _ m => m
  | EStateM.Result.error _ m => m

/-- Returned value of an EStateM result, when it succeeded. -/
def resultValue {α : Type} : EStateM.Result SimError Machine α → Option α
  | EStateM.Result.ok v _ => some v
  | EStateM.Result.error _ _ => none

/-- Whether an EStateM result succeeded without raising. -/
def isOk {α : Type} : EStateM.Result SimError Machine α → Bool
  | EStateM.Result.ok _ _ => true
  | EStateM.Result.error _ _ => false

/-- CPU.initialize_registers together with the halted flag as left by
CPU.__init__ (src/cpu.py lines 23-32, 48-61): zeroed registers, S = $FF,
halted, no breakpoints, empty last-break memo. -/
def initCPU : CPU :=
  { a := 0, x := 0, y := 0, pc := 0, s := 0xFF, c := 0, z := 0, i := 0,
    d := 0, b := 0, v := 0, n := 0, halted := true, breakpoints := [],
    last_break := none }

/-- Bus.__init__ without randomisation (src/bus.py lines 28-45): zeroed
memory, everything readable and writeable, memory errors on, no pending
interrupt. -/
def zeroBus : Bus :=
  { mem := fun _ => 0, is_writeable := fun _ => true,
    is_readable := fun _ => true, throw_memory_errors := true,
    interrupt := none }

/-- Test memory for the indirect page-wrap: pointer bytes $FF $10 at the
program counter, target bytes at $10FF and $1000. -/
def memIndWrap : Nat → Nat := fun a =>
  if a = 0 then 0xFF else if a = 1 then 0x10 else
  if a = 0x10FF then 0x34 else if a = 0x1000 then 0x12 else 0

/-- Test memory for the non-wrapping indirect case: pointer $0300 holding
$34 $12. -/
def memIndNorm : Nat → Nat := fun a =>
  if a = 0 then 0x00 else if a = 1 then 0x03 else
  if a = 0x0300 then 0x34 else if a = 0x0301 then 0x12 else 0

/-- Test memory for opcode $21: the instruction bytes $21 $10 $03 at $0000,
a two-byte pointer $1234 at $0310 with the operand byte $F0 at $1234, and
the zero-page pointer $0080 at $0010 with the byte $0F at $0080 (what the
documented (indirect,X) decoding would fetch). -/
def memOp21 : Nat → Nat := fun a =>
  if a = 0 then 0x21 else if a = 1 then 0x10 else if a = 2 then 0x03 else
  if a = 0x0310 then 0x34 else if a = 0x0311 then 0x12 else
  if a = 0x1234 then 0xF0 else
  if a = 0x10 then 0x80 else if a = 0x11 then 0x00 else
  if a = 0x80 then 0x0F else 0

/-- Reset vector memory: the word $1234 at $FFFC-$FFFD. -/
def memVec : Nat → Nat := fun a =>
  if a = 0xFFFC then 0x34 else if a = 0xFFFD then 0x12 else 0

/-- A bus on which address $5000 is neither readable nor writeable. -/
def busNoRW : Bus :=
  { zeroBus with is_readable := fun a => decide (a ≠ 0x5000),
                 is_writeable := fun a => decide (a ≠ 0x5000) }

/-- The same bus with memory errors switched off. -/
def busNoRWoff : Bus := { busNoRW with throw_memory_errors := false }

/-- An Apple 1 system bus fixture carrying the permission map installed by
SystemBus.__init__, zeroed memory and registers, and an attached empty
terminal. -/
def apple1SB : SystemBus :=
  { base := { mem := fun _ => 0, is_writeable := apple1_is_writeable,
              is_readable := apple1_is_readable, throw_memory_errors := true,
              interrupt := none },
    kbd := 0, dsp := 0, screen := some [] }

/-- The same Apple 1 bus with memory errors switched off. -/
def apple1SBoff : SystemBus :=
  { apple1SB with base := { apple1SB.base with throw_memory_errors := false } }

end Sim6502

namespace Sim6502

theorem run_bind {α β : Type} (x : M α) (f : α → M β) (m : Machine) :
    EStateM.run (x >>= f) m =
      match EStateM.run x m with
      | EStateM.Result.ok a m1 => EStateM.run (f a) m1
      | EStateM.Result.error e m1 => EStateM.Result.error e m1 := by
  cases hx : EStateM.run x m with
  | ok a m1 =>
    show EStateM.bind x f m = EStateM.run (f a) m1
    unfold EStateM.bind
    rw [show x m = EStateM.Result.ok a m1 from hx]
    rfl
  | error e m1 =>
    show EStateM.bind x f m = EStateM.Result.error e m1
    unfold EStateM.bind
    rw [show x m = EStateM.Result.error e m1 from hx]

theorem run_pure {α : Type} (a : α) (m : Machine) :
    EStateM.run (pure a : M α) m = EStateM.Result.ok a m := rfl

theorem run_getM (m : Machine) : EStateM.run getM m = EStateM.Result.ok m m := rfl

theorem run_getC (m : Machine) : EStateM.run getC m = EStateM.Result.ok m.cpu m := rfl

theorem run_modC (f : CPU → CPU) (m : Machine) :
    EStateM.run (modC f) m = EStateM.Result.ok () { m with cpu := f m.cpu } := rfl

theorem run_modB (f : Bus → Bus) (m : Machine) :
    EStateM.run (modB f) m = EStateM.Result.ok () { m with bus := f m.bus } := rfl

theorem run_throwSim {α : Type} (e : SimError) (m : Machine) :
    EStateM.run (throwSim e : M α) m = EStateM.Result.error e m := rfl

theorem run_busRead (address : Nat) (m : Machine) :
    EStateM.run (busRead address) m =
      match Bus.read m.bus address with
      | Except.ok v => EStateM.Result.ok v m
      | Except.error e => EStateM.Result.error e m := rfl

theorem run_busWrite (address value : Nat) (m : Machine) :
    EStateM.run (busWrite address value) m =
      match Bus.write m.bus address value with
      | (bus1, none) => EStateM.Result.ok () { m with bus := bus1 }
      | (bus1, some e) => EStateM.Result.error e { m with bus := bus1 } := rfl

theorem run_ite {α : Type} (c : Prop) [Decidable c] (x y : M α) (m : Machine) :
    EStateM.run (if c then x else y) m =
      if c then EStateM.run x m else EStateM.run y m := by
  split <;> rfl

theorem and_pow_ne_zero (p k : Nat) : p &&& 2 ^ k ≠ 0 ↔ p.testBit k := by
  rw [Nat.and_two_pow]
  cases h : p.testBit k <;> simp

theorem and_bit7 (p : Nat) : (p &&& 128 ≠ 0) ↔ p.testBit 7 := and_pow_ne_zero p 7

theorem and_bit6 (p : Nat) : (p &&& 64 ≠ 0) ↔ p.testBit 6 := and_pow_ne_zero p 6

theorem and_bit4 (p : Nat) : (p &&& 16 ≠ 0) ↔ p.testBit 4 := and_pow_ne_zero p 4

theorem and_bit3 (p : Nat) : (p &&& 8 ≠ 0) ↔ p.testBit 3 := and_pow_ne_zero p 3

theorem and_bit2 (p : Nat) : (p &&& 4 ≠ 0) ↔ p.testBit 2 := and_pow_ne_zero p 2

theorem and_bit1 (p : Nat) : (p &&& 2 ≠ 0) ↔ p.testBit 1 := and_pow_ne_zero p 1

theorem and_bit0 (p : Nat) : (p &&& 1 ≠ 0) ↔ p.testBit 0 := and_pow_ne_zero p 0

/-- C1: corrected.  The pulled byte's bit 5 is indeed ignored (no stored
flag corresponds to it) and N, V, D, I, Z, C come from bits 7, 6, 3, 2, 1,
0 of the pulled byte, but the claim's assertion that the B flag is left
unchanged fails: CPU.set_status_register writes bit 4 of the pulled byte
into b.  This theorem proves the amended statement for PLP (the status-pull
phase CPU.rti reuses verbatim by calling plp): all flags, including b, are
functions of the stated bits of p, the stack pointer advances by one, and
nothing else changes. -/
theorem plp_sets_flags_from_pulled_byte (m : Machine) (p : Nat)
    (h : Bus.read m.bus (stack_location + (m.cpu.s + 1) % 256) = Except.ok p) :
    plp.run m = EStateM.Result.ok ()
      { m with cpu := { m.cpu with
          s := (m.cpu.s + 1) % 256,
          n := if p.testBit 7 then 1 else 0,
          v := if p.testBit 6 then 1 else 0,
          b := if p.testBit 4 then 1 else 0,
          d := if p.testBit 3 then 1 else 0,
          i := if p.testBit 2 then 1 else 0,
          z := if p.testBit 1 then 1 else 0,
          c := if p.testBit 0 then 1 else 0 } } := by
  simp only [plp, pull, run_bind, run_modC, run_getC, run_busRead, h]
  simp [set_status_register, and_bit7, and_bit6, and_bit4, and_bit3,
        and_bit2, and_bit1, and_bit0]

/-- C1: the counterexample to the claim as stated.  Pulling the byte $00
with the B flag previously 1 leaves b = 0 afterwards, so PLP does not leave
the CPU's B flag unchanged. -/
theorem plp_overwrites_b_counterexample :
    (resultMachine (plp.run
      { cpu := { initCPU with halted := false, b := 1, s := 0 },
        bus := zeroBus })).cpu.b = 0 ∧
    ({ cpu := { initCPU with halted := false, b := 1, s := 0 },
       bus := zeroBus } : Machine).cpu.b = 1 := by
  exact ⟨rfl, rfl⟩

/-- C1: witness instantiating the amended theorem at the pulled byte $10
(bit 4 set) on a concrete machine. -/
theorem plp_sets_flags_from_pulled_byte_witness :
    plp.run { cpu := { initCPU with halted := false },
              bus := { zeroBus with mem := fun _ => 0x10 } } =
      EStateM.Result.ok ()
        { cpu := { initCPU with halted := false, s := 0, b := 1 },
          bus := { zeroBus with mem := fun _ => 0x10 } } := by
  have h := plp_sets_flags_from_pulled_byte
    { cpu := { initCPU with halted := false },
      bus := { zeroBus with mem := fun _ => 0x10 } } 0x10 rfl
  exact h

theorem mod_mod_65536 (x : Nat) : x % 65536 % 65536 = x % 65536 :=
  Nat.mod_mod_of_dvd x dvd_rfl

theorem mod_mod_256 (x : Nat) : x % 256 % 256 = x % 256 :=
  Nat.mod_mod_of_dvd x dvd_rfl

/-- C6: confirmed.  The generic bus masks the address to 16 bits and the
value to 8 bits before any permission check, so read and write behave
identically on a and on a mod 65536 (and v mod 256), and a successful
write stores exactly v mod 256. -/
theorem bus_read_write_mask (bus : Bus) (a v : Nat) :
    Bus.read bus a = Bus.read bus (a % 65536) ∧
    Bus.write bus a v = Bus.write bus (a % 65536) (v % 256) ∧
    (bus.is_writeable (a % 65536) = true →
      (Bus.write bus a v).1.mem (a % 65536) = v % 256 ∧
      (Bus.write bus a v).2 = none) := by
  refine ⟨?_, ?_, fun hw => ?_⟩
  · simp [Bus.read, mod_mod_65536]
  · simp [Bus.write, mod_mod_65536, mod_mod_256]
  · simp [Bus.write, hw]

/-- C6: witness at the out-of-range address 70000 and out-of-range value
300 on the all-writeable zero bus. -/
theorem bus_read_write_mask_witness :
    (Bus.write zeroBus 70000 300).1.mem (70000 % 65536) = 300 % 256 ∧
    (Bus.write zeroBus 70000 300).2 = none := by
  have h := (bus_read_write_mask zeroBus 70000 300).2.2 rfl
  exact h

/-- C7: confirmed.  For a masked (in-range) address: an unreadable read
raises the SimError naming the address in four-digit hex when
throw_memory_errors is on and returns 0 when it is off; an unwritable
write raises or is silently dropped the same way, and in both unwritable
cases the returned bus — memory included — is the unchanged input bus. -/
theorem bus_permission_errors (bus : Bus) (a v : Nat) (ha : a < 65536) :
    (bus.is_readable a = false →
      (bus.throw_memory_errors = true →
        Bus.read bus a = Except.error
          ⟨"Attempt to read from unreadable address $" ++ toHexPad 4 a⟩) ∧
      (bus.throw_memory_errors = false → Bus.read bus a = Except.ok 0)) ∧
    (bus.is_writeable a = false →
      (Bus.write bus a v).1 = bus ∧
      (bus.throw_memory_errors = true →
        (Bus.write bus a v).2 = some
          ⟨"Attempt to write value $" ++ toHexPad 2 (v % 256) ++
           " to unwriteable address $" ++ toHexPad 4 a⟩) ∧
      (bus.throw_memory_errors = false → (Bus.write bus a v).2 = none)) := by
  have hmask : a % 65536 = a := Nat.mod_eq_of_lt ha
  refine ⟨fun hr => ⟨fun ht => ?_, fun ht => ?_⟩,
          fun hw => ⟨?_, fun ht => ?_, fun ht => ?_⟩⟩
  · simp [Bus.read, hmask, hr, ht]
  · simp [Bus.read, hmask, hr, ht]
  · cases ht : bus.throw_memory_errors <;> simp [Bus.write, hmask, hw, ht]
  · simp [Bus.write, hmask, hw, ht]
  · simp [Bus.write, hmask, hw, ht]

/-- C7: witness on the bus whose address $5000 is neither readable nor
writeable, in both the strict and the silent configuration. -/
theorem bus_permission_errors_witness :
    Bus.read busNoRW 0x5000 = Except.error
      ⟨"Attempt to read from unreadable address $5000"⟩ ∧
    (Bus.write busNoRW 0x5000 0x12).2 = some
      ⟨"Attempt to write value $12 to unwriteable address $5000"⟩ ∧
    Bus.read busNoRWoff 0x5000 = Except.ok 0 ∧
    (Bus.write busNoRWoff 0x5000 0x12).2 = none ∧
    (Bus.write busNoRW 0x5000 0x12).1 = busNoRW ∧
    (Bus.write busNoRWoff 0x5000 0x12).1 = busNoRWoff := by
  have h1 := bus_permission_errors busNoRW 0x5000 0x12 (by decide)
  have h2 := bus_permission_errors busNoRWoff 0x5000 0x12 (by decide)
  exact ⟨(h1.1 rfl).1 rfl, (h1.2 rfl).2.1 rfl, (h2.1 rfl).2 rfl,
         (h2.2 rfl).2.2 rfl, (h1.2 rfl).1, (h2.2 rfl).1⟩

/-- C9: confirmed.  The Apple 1 SystemBus write path only intercepts
$D012, $D011 and $D013; a write to the keyboard data register $D010 falls
through to the base bus, where the init-time permission map marks $D010
non-writable, so it raises the memory SimError when strict and is dropped
silently otherwise; in both cases the returned SystemBus — keyboard latch
and memory included — is the unchanged input. -/
theorem apple1_write_d010_falls_through (sb : SystemBus) (v : Nat)
    (hw : sb.base.is_writeable 0xD010 = false) :
    apple1_is_writeable 0xD010 = false ∧
    (sb.base.throw_memory_errors = true →
      SystemBus.write sb 0xD010 v =
        (sb, some ⟨"Attempt to write value $" ++ toHexPad 2 (v % 256) ++
                   " to unwriteable address $" ++ toHexPad 4 0xD010⟩)) ∧
    (sb.base.throw_memory_errors = false →
      SystemBus.write sb 0xD010 v = (sb, none)) := by
  refine ⟨by decide, fun ht => ?_, fun ht => ?_⟩
  · simp [SystemBus.write, Bus.write, mod_mod_256, hw, ht]
  · simp [SystemBus.write, Bus.write, mod_mod_256, hw, ht]

/-- C9: witness on the Apple 1 bus fixture, in both the strict and the
silent configuration. -/
theorem apple1_write_d010_falls_through_witness :
    SystemBus.write apple1SB 0xD010 0x42 =
      (apple1SB, some ⟨"Attempt to write value $42 to unwriteable address $D010"⟩) ∧
    SystemBus.write apple1SBoff 0xD010 0x42 = (apple1SBoff, none) := by
  have h1 := (apple1_write_d010_falls_through apple1SB 0x42 rfl).2.1 rfl
  have h2 := (apple1_write_d010_falls_through apple1SBoff 0x42 rfl).2.2 rfl
  exact ⟨h1, h2⟩

/-- C10: confirmed.  An interrupt tag other than RES and HLT makes step
raise the unimplemented-interrupt SimError before the slot is cleared: the
error result carries exactly the entry machine, so the slot still holds
the tag, halted is still false, and registers and memory are untouched —
whence every subsequent step call fails identically until the slot is
cleared externally. -/
theorem step_unknown_interrupt (m : Machine) (tag : String)
    (hh : m.cpu.halted = false) (hi : m.bus.interrupt = some tag)
    (h1 : tag ≠ "RES") (h2 : tag ≠ "HLT") :
    step.run m = EStateM.Result.error
      ⟨"Unimplemented interrupt condition " ++ tag⟩ m := by
  simp [step, run_bind, run_getM, run_ite, run_throwSim, hh, hi, h1, h2]

/-- C10: witness with the tag IRQ on a concrete machine. -/
theorem step_unknown_interrupt_witness :
    step.run { cpu := { initCPU with halted := false },
               bus := { zeroBus with interrupt := some "IRQ" } } =
      EStateM.Result.error ⟨"Unimplemented interrupt condition IRQ"⟩
        { cpu := { initCPU with halted := false },
          bus := { zeroBus with interrupt := some "IRQ" } } := by
  have h := step_unknown_interrupt
    { cpu := { initCPU with halted := false },
      bus := { zeroBus with interrupt := some "IRQ" } }
    "IRQ" rfl rfl (by decide) (by decide)
  exact h

/-- C5: confirmed.  With a non-empty interrupt slot, step resolves the
interrupt before any opcode fetch and executes no instruction: RES runs
reset (I set, PC loaded little-endian from $FFFC) and clears the slot; HLT
sets halted and clears the slot.  The resulting machine keeps A, X, Y, S
and all of memory from the entry machine. -/
theorem step_interrupt_precedence (m : Machine) (lo hi : Nat)
    (hh : m.cpu.halted = false) :
    (m.bus.interrupt = some "RES" →
      Bus.read m.bus 0xFFFC = Except.ok lo →
      Bus.read m.bus 0xFFFD = Except.ok hi →
      step.run m = EStateM.Result.ok ()
        { m with cpu := { m.cpu with i := 1, pc := lo + hi * 0x100 },
                 bus := { m.bus with interrupt := none } }) ∧
    (m.bus.interrupt = some "HLT" →
      step.run m = EStateM.Result.ok ()
        { m with cpu := { m.cpu with halted := true },
                 bus := { m.bus with interrupt := none } }) := by
  constructor
  · intro hint hlo hhi
    simp [step, reset, reset_vector, sei_and_set_pc, sei, run_bind, run_getM,
          run_modC, run_modB, run_busRead, run_ite, hh, hint, hlo, hhi]
  · intro hint
    simp [step, run_bind, run_getM, run_modC, run_modB, run_ite, hh, hint]

/-- C5: witness with the reset vector word $1234 for the RES case and a
separate machine for the HLT case. -/
theorem step_interrupt_precedence_witness :
    step.run { cpu := { initCPU with halted := false },
               bus := { zeroBus with interrupt := some "RES", mem := memVec } } =
      EStateM.Result.ok ()
        { cpu := { initCPU with halted := false, i := 1, pc := 0x1234 },
          bus := { zeroBus with mem := memVec } } ∧
    step.run { cpu := { initCPU with halted := false },
               bus := { zeroBus with interrupt := some "HLT" } } =
      EStateM.Result.ok ()
        { cpu := initCPU, bus := zeroBus } := by
  have h1 := (step_interrupt_precedence
    { cpu := { initCPU with halted := false },
      bus := { zeroBus with interrupt := some "RES", mem := memVec } }
    0x34 0x12 rfl).1 rfl rfl rfl
  have h2 := (step_interrupt_precedence
    { cpu := { initCPU with halted := false },
      bus := { zeroBus with interrupt := some "HLT" } }
    0 0 rfl).2 rfl
  exact ⟨h1, h2⟩

/-- C4: confirmed.  With no pending interrupt and PC in the breakpoint
set: when the last-break memo differs from PC (in particular when empty),
step halts, records PC in the memo and returns with nothing else changed;
when the memo equals PC, step clears the memo and proceeds exactly as the
fetch-and-execute phase on the memo-cleared machine.  Two consecutive
arrivals therefore halt first and execute second, and the executed case
leaves the memo empty so a later arrival re-traps. -/
theorem step_breakpoint_resume (m : Machine)
    (hh : m.cpu.halted = false)
    (hi : m.bus.interrupt = none)
    (hb : m.cpu.pc ∈ m.cpu.breakpoints) :
    (m.cpu.last_break ≠ some m.cpu.pc →
      step.run m = EStateM.Result.ok ()
        { m with cpu := { m.cpu with halted := true,
                                     last_break := some m.cpu.pc } }) ∧
    (m.cpu.last_break = some m.cpu.pc →
      step.run m = fetch_and_execute.run
        { m with cpu := { m.cpu with last_break := none } }) := by
  constructor
  · intro hne
    have hcond : m.cpu.last_break = none ∨ some m.cpu.pc ≠ m.cpu.last_break := by
      cases hlb : m.cpu.last_break with
      | none => exact Or.inl rfl
      | some w =>
        right
        intro hcontra
        exact hne (by rw [hlb, ← hcontra])
    simp [step, run_bind, run_getM, run_modC, run_ite, hh, hi, hb, hcond]
  · intro hlb
    simp [step, run_bind, run_getM, run_modC, run_ite, hh, hi, hb, hlb]

/-- C4: witness: at PC = 5 with breakpoint set {5}, the first arrival
halts and records the memo, and with the memo already 5 the second call
proceeds as fetch-and-execute with the memo cleared. -/
theorem step_breakpoint_resume_witness :
    step.run { cpu := { initCPU with halted := false, pc := 5, breakpoints := [5] },
               bus := zeroBus } =
      EStateM.Result.ok ()
        { cpu := { initCPU with pc := 5, breakpoints := [5], last_break := some 5 },
          bus := zeroBus } ∧
    step.run { cpu := { initCPU with halted := false, pc := 5, breakpoints := [5], last_break := some 5 },
               bus := zeroBus } =
      fetch_and_execute.run
        { cpu := { initCPU with halted := false, pc := 5, breakpoints := [5] },
          bus := zeroBus } := by
  have h1 := (step_breakpoint_resume
    { cpu := { initCPU with halted := false, pc := 5, breakpoints := [5] },
      bus := zeroBus } rfl rfl (by decide)).1 (by decide)
  have h2 := (step_breakpoint_resume
    { cpu := { initCPU with halted := false, pc := 5, breakpoints := [5], last_break := some 5 },
      bus := zeroBus } rfl rfl (by decide)).2 rfl
  exact ⟨h1, h2⟩

/-- C8: the table entry for opcode $21 contradicts the claim (and the
documented 6502): instead of pairing AND with the one-byte zero-page
(indirect,X) resolver, the source pairs it with the two-byte absolute
indirect resolver that the code itself documents as used only by JMP.  On
the concrete memOp21 machine, executing the instruction at $0000 leaves PC
at 3 (an opcode plus TWO operand bytes consumed, where the claim requires
exactly one) and A = $FF AND $F0 = $F0, the operand fetched through the
absolute pointer $0310 -> $1234; the claimed (indirect,X) decoding would
have left PC at 2 and fetched $0F through the zero-page pointer at $10. -/
theorem opcode_21_uses_absolute_indirect :
    opcodes 0x21 = some (Instruction.addressed Opc.aNd Mode.indirect) ∧
    Mode.indirect ≠ Mode.indirect_x ∧
    isOk (step.run { cpu := { initCPU with halted := false, a := 0xFF },
                     bus := { zeroBus with mem := memOp21 } }) = true ∧
    (resultMachine (step.run { cpu := { initCPU with halted := false, a := 0xFF },
                               bus := { zeroBus with mem := memOp21 } })).cpu.pc = 3 ∧
    (resultMachine (step.run { cpu := { initCPU with halted := false, a := 0xFF },
                               bus := { zeroBus with mem := memOp21 } })).cpu.a = 0xF0 := by
  exact ⟨rfl, by decide, rfl, rfl, rfl⟩

/-- C3: confirmed.  The indirect resolver (used by JMP via table entry
$6C) reads the pointer location L from the two bytes after the opcode;
when L's low byte is $FF, the target's high byte is fetched from the start
of the same page (L / 256 * 256, i.e. $xx00) rather than the next page,
and otherwise from L + 1; the low byte always comes from L. -/
theorem jmp_indirect_page_wrap (m : Machine) (L : Nat)
    (hr : ∀ addr, m.bus.is_readable addr = true)
    (hL : L < 65536)
    (h1 : m.bus.mem (m.cpu.pc % 65536) = L % 256)
    (h2 : m.bus.mem ((m.cpu.pc + 1) % 65536) = L / 256) :
    opcodes 0x6C = some (Instruction.addressed Opc.jmp Mode.indirect) ∧
    (L % 256 = 0xFF →
      resultValue (indirect.run m) =
        some (m.bus.mem (L / 256 * 256) * 0x100 + m.bus.mem L)) ∧
    (L % 256 ≠ 0xFF →
      resultValue (indirect.run m) =
        some (m.bus.mem (L + 1) * 0x100 + m.bus.mem L)) := by
  have hptr : L % 256 + L / 256 * 0x100 = L := by omega
  have hLmask : L % 65536 = L := Nat.mod_eq_of_lt hL
  refine ⟨rfl, fun hwrap => ?_, fun hnow => ?_⟩
  · have hsub : L - 0xFF = L / 256 * 256 := by omega
    have hsubmask : (L - 0xFF) % 65536 = L - 0xFF :=
      Nat.mod_eq_of_lt (by omega)
    simp only [indirect, run_bind, run_getC, run_modC, run_busRead, run_pure,
          inc_pc, Bus.read, hr, mod_mod_65536, h1, h2, hptr, hLmask, hwrap,
          hsubmask, hsub, resultValue, if_true, Nat.reduceEqDiff]
    simp [hr, hwrap]
    rw [show L / 256 * 256 % 65536 = L / 256 * 256 from by omega,
        show (255 + L / 256 * 256) % 65536 = L from by omega]
  · have hlt : L + 1 < 65536 := by omega
    have haddmask : (L + 1) % 65536 = L + 1 := Nat.mod_eq_of_lt hlt
    simp [indirect, run_bind, run_getC, run_modC, run_busRead, run_pure,
          inc_pc, Bus.read, hr, mod_mod_65536, h1, h2, hptr, hLmask, hnow,
          haddmask, resultValue]

/-- C3: witness on two concrete machines: JMP ($10FF) resolves with the
high byte from $1000 giving $1234, and the non-wrapping pointer $0300
resolves through $0300/$0301 likewise to $1234. -/
theorem jmp_indirect_page_wrap_witness :
    resultValue (indirect.run { cpu := { initCPU with halted := false },
                                bus := { zeroBus with mem := memIndWrap } }) =
      some 0x1234 ∧
    resultValue (indirect.run { cpu := { initCPU with halted := false },
                                bus := { zeroBus with mem := memIndNorm } }) =
      some 0x1234 := by
  have h1 := (jmp_indirect_page_wrap
    { cpu := { initCPU with halted := false },
      bus := { zeroBus with mem := memIndWrap } }
    0x10FF (fun _ => rfl) (by decide) rfl rfl).2.1 rfl
  have h2 := (jmp_indirect_page_wrap
    { cpu := { initCPU with halted := false },
      bus := { zeroBus with mem := memIndNorm } }
    0x0300 (fun _ => rfl) (by decide) rfl rfl).2.2 (by decide)
  exact ⟨h1, h2⟩

theorem bin2bcd_ofNat (k : Nat) : bin2bcd (k : Int) = (k / 10 * 16 + k % 10) % 256 := by
  unfold bin2bcd
  norm_cast

/-- Execution of adc in decimal mode, stated against the code: the binary
sum r of the BCD-decoded operands and the carry loses a single 100 when it
reaches 100 (setting carry), V compares bit 7 of the old A and the operand
with the pre-encoding result, N and Z are set from the pre-encoding result,
and A receives its bin2bcd re-encoding. -/
theorem adc_decimal_run (m : Machine) (value address r result : Nat)
    (hd : m.cpu.d = 1)
    (hread : Bus.read m.bus address = Except.ok value)
    (hr : r = bcd2bin m.cpu.a + bcd2bin value + m.cpu.c)
    (hres : result = if 100 ≤ r then r - 100 else r) :
    (adc address).run m = EStateM.Result.ok ()
      { m with cpu := { m.cpu with
          c := if 100 ≤ r then 1 else 0,
          v := if m.cpu.a &&& 0x80 ≠ result &&& 0x80 ∧
                  value &&& 0x80 ≠ result &&& 0x80 then 1 else 0,
          z := if (result : Int) = 0 then 1 else 0,
          n := if 0x80 ≤ (result : Int) then 1 else 0,
          a := bin2bcd (result : Int) } } := by
  subst hres
  subst hr
  by_cases hcar : 100 ≤ bcd2bin m.cpu.a + bcd2bin value + m.cpu.c
  · simp [adc, run_bind, run_getC, run_modC, run_busRead, run_pure, run_ite,
          set_nz, hread, hd, hcar]
    exact ⟨if_congr (by omega) rfl rfl, if_congr (by omega) rfl rfl⟩
  · simp [adc, run_bind, run_getC, run_modC, run_busRead, run_pure, run_ite,
          set_nz, hread, hd, hcar]
    exact ⟨if_congr (by omega) rfl rfl, if_congr (by omega) rfl rfl⟩

/-- C2: corrected.  For valid BCD operands with D=1 and C at most 1, ADC
computes r in base 10, sets C iff r reached 100, stores the BCD
re-encoding of r mod 100 in A, and sets Z iff r mod 100 is zero
(equivalently, iff the BCD-encoded result byte is zero, see the Iff
conjunct) — all as the claim states.  But N is set from the binary value
r mod 100, which is at most 99, so N is always 0 in this range — not from
bit 7 of the BCD-encoded result byte as the claim asserts. -/
theorem adc_decimal_mode (m : Machine) (value address : Nat)
    (hd : m.cpu.d = 1) (hc : m.cpu.c ≤ 1)
    (ha1 : m.cpu.a % 16 ≤ 9) (ha2 : m.cpu.a / 16 ≤ 9)
    (hv1 : value % 16 ≤ 9) (hv2 : value / 16 ≤ 9)
    (hread : Bus.read m.bus address = Except.ok value) :
    isOk ((adc address).run m) = true ∧
    (resultMachine ((adc address).run m)).cpu.a =
      bin2bcd (((bcd2bin m.cpu.a + bcd2bin value + m.cpu.c) % 100 : Nat) : Int) ∧
    (resultMachine ((adc address).run m)).cpu.c =
      (if 100 ≤ bcd2bin m.cpu.a + bcd2bin value + m.cpu.c then 1 else 0) ∧
    (resultMachine ((adc address).run m)).cpu.z =
      (if (bcd2bin m.cpu.a + bcd2bin value + m.cpu.c) % 100 = 0 then 1 else 0) ∧
    (bin2bcd (((bcd2bin m.cpu.a + bcd2bin value + m.cpu.c) % 100 : Nat) : Int) = 0 ↔
      (bcd2bin m.cpu.a + bcd2bin value + m.cpu.c) % 100 = 0) ∧
    (resultMachine ((adc address).run m)).cpu.n = 0 := by
  have hba : bcd2bin m.cpu.a ≤ 99 := by unfold bcd2bin; omega
  have hbv : bcd2bin value ≤ 99 := by unfold bcd2bin; omega
  have hres : (if 100 ≤ bcd2bin m.cpu.a + bcd2bin value + m.cpu.c then
        bcd2bin m.cpu.a + bcd2bin value + m.cpu.c - 100
      else bcd2bin m.cpu.a + bcd2bin value + m.cpu.c) =
      (bcd2bin m.cpu.a + bcd2bin value + m.cpu.c) % 100 := by
    by_cases h : 100 ≤ bcd2bin m.cpu.a + bcd2bin value + m.cpu.c <;>
      simp [h] <;> omega
  have hrun := adc_decimal_run m value address
    (bcd2bin m.cpu.a + bcd2bin value + m.cpu.c)
    (if 100 ≤ bcd2bin m.cpu.a + bcd2bin value + m.cpu.c then
       bcd2bin m.cpu.a + bcd2bin value + m.cpu.c - 100
     else bcd2bin m.cpu.a + bcd2bin value + m.cpu.c)
    hd hread rfl rfl
  rw [hres] at hrun
  rw [hrun]
  refine ⟨rfl, rfl, rfl, ?_, ?_, ?_⟩
  · exact if_congr Nat.cast_eq_zero rfl rfl
  · rw [bin2bcd_ofNat]
    omega
  · show (if (0x80 : Int) ≤ (((bcd2bin m.cpu.a + bcd2bin value + m.cpu.c) % 100 : Nat) : Int)
        then 1 else 0) = 0
    rw [if_neg (by omega)]

/-- C2: the counterexample to the claim as stated.  With D=1, C=0, A=$50
and operand $35 the BCD-encoded result byte stored in A is $85, whose bit
7 is 1, yet the executed code leaves N = 0, because set_nz runs on the
binary value 85 before re-encoding. -/
theorem adc_decimal_n_flag_counterexample :
    (resultMachine ((adc 0).run
      { cpu := { initCPU with halted := false, a := 0x50, d := 1 },
        bus := { zeroBus with mem := fun _ => 0x35 } })).cpu.a = 0x85 ∧
    Nat.testBit 0x85 7 = true ∧
    (resultMachine ((adc 0).run
      { cpu := { initCPU with halted := false, a := 0x50, d := 1 },
        bus := { zeroBus with mem := fun _ => 0x35 } })).cpu.n = 0 := by
  exact ⟨rfl, rfl, rfl⟩

/-- C2: witness for the amended theorem at the claim's own examples:
decimal $09 + $01 yields A=$10 with C=0, and decimal $99 + $01 yields
A=$00 with C=1 and Z=1; N is 0 both times. -/
theorem adc_decimal_mode_witness :
    (resultMachine ((adc 0).run
      { cpu := { initCPU with halted := false, a := 0x09, d := 1 },
        bus := { zeroBus with mem := fun _ => 0x01 } })).cpu.a = 0x10 ∧
    (resultMachine ((adc 0).run
      { cpu := { initCPU with halted := false, a := 0x09, d := 1 },
        bus := { zeroBus with mem := fun _ => 0x01 } })).cpu.c = 0 ∧
    (resultMachine ((adc 0).run
      { cpu := { initCPU with halted := false, a := 0x99, d := 1 },
        bus := { zeroBus with mem := fun _ => 0x01 } })).cpu.a = 0x00 ∧
    (resultMachine ((adc 0).run
      { cpu := { initCPU with halted := false, a := 0x99, d := 1 },
        bus := { zeroBus with mem := fun _ => 0x01 } })).cpu.c = 1 ∧
    (resultMachine ((adc 0).run
      { cpu := { initCPU with halted := false, a := 0x99, d := 1 },
        bus := { zeroBus with mem := fun _ => 0x01 } })).cpu.z = 1 ∧
    (resultMachine ((adc 0).run
      { cpu := { initCPU with halted := false, a := 0x09, d := 1 },
        bus := { zeroBus with mem := fun _ => 0x01 } })).cpu.n = 0 := by
  have h1 := adc_decimal_mode
    { cpu := { initCPU with halted := false, a := 0x09, d := 1 },
      bus := { zeroBus with mem := fun _ => 0x01 } }
    0x01 0 rfl (by decide) (by decide) (by decide) (by decide) (by decide) rfl
  have h2 := adc_decimal_mode
    { cpu := { initCPU with halted := false, a := 0x99, d := 1 },
      bus := { zeroBus with mem := fun _ => 0x01 } }
    0x01 0 rfl (by decide) (by decide) (by decide) (by decide) (by decide) rfl
  exact ⟨h1.2.1, h1.2.2.1, h2.2.1, h2.2.2.1, h2.2.2.2.1, h1.2.2.2.2.2⟩

end Sim6502
